import Mathlib

/-!
Shallow embedding of `src/streamlit_app.py` (a Streamlit page that lets a
user log in, pick a BigQuery table, filter it by client and a date range,
download the filtered rows as CSV, and upload a CSV into a table of the
`sftp_uploads` dataset).

External services (Streamlit widgets, the BigQuery client) appear as
explicit parameters: a warehouse table is a list of rows, a fallible
warehouse call is a function `Nat → Except String α` giving the result of
each successive attempt (the page only ever performs attempt `0`), and
everything displayed to the user is collected into a list of `Msg`.
-/

namespace StreamlitApp

/-- A message displayed on the page: `st.error`, `st.warning`, `st.success`. -/
inductive Msg where
  | error (s : String)
  | warning (s : String)
  | success (s : String)
deriving DecidableEq, Repr

/-! ### Login (lines 18–38) -/

/-- The two secrets read from `st.secrets` in `login` (lines 28–29). -/
structure LoginSecrets where
  username : String
  app_password : String

/-- The piece of `st.session_state` the page uses (lines 18–19). -/
structure Session where
  logged_in : Bool
deriving DecidableEq, Repr

/-- Embeds `login()` (lines 21–34): when the Login button is clicked, the
entered pair is compared against the stored secrets; a match sets
`st.session_state.logged_in` to true, a mismatch shows
"Incorrect username or password" and leaves the session unchanged. -/
def login (secrets : LoginSecrets) (username_input password_input : String)
    (clicked : Bool) (s : Session) : Session × List Msg :=
  if clicked then
    if username_input = secrets.username ∧ password_input = secrets.app_password then
      ({ logged_in := true }, [])
    else
      (s, [Msg.error "Incorrect username or password"])
  else
    (s, [])

/-- The successive sections of the page script, in source order. -/
inductive PageStep where
  | loginForm
  | tableFilterSelection
  | queryDownload
  | uploadSection
deriving DecidableEq, Repr

/-- Embeds the top-level gating (lines 36–38): when `logged_in` is false the
script shows `login()` and calls `st.stop()`, so no later section runs;
otherwise the remaining sections run in order. -/
def scriptRun (s : Session) : List PageStep :=
  if s.logged_in then
    [PageStep.tableFilterSelection, PageStep.queryDownload, PageStep.uploadSection]
  else
    [PageStep.loginForm]

/-! ### Table registry and filter selection (lines 62–102) -/

/-- The `tables` dict (lines 62–68). -/
def tables : List (String × String) :=
  [("All Paid Media", "trimark-tdp.master.all_paidmedia"),
   ("All GA4", "trimark-tdp.master.all_ga4"),
   ("All Leads", "trimark-tdp.master.all_leads"),
   ("All Form Leads", "trimark-tdp.master.all_form_table"),
   ("All GMB", "trimark-tdp.master.all_gmb")]

/-- `table_path = tables[selected_table]` (line 76). -/
def table_path (selected_table : String) : Option String :=
  (tables.find? (fun p => p.1 = selected_table)).map Prod.snd

/-- Embeds lines 79–82: the client column is `Client_Name` for the
"All Leads" and "All Form Leads" tables and `client_name` otherwise. -/
def client_col (selected_table : String) : String :=
  if selected_table = "All Leads" ∨ selected_table = "All Form Leads" then
    "Client_Name"
  else
    "client_name"

/-- The SQL text of the client-fetch query (line 94). -/
def client_query (selected_table : String) : Option String :=
  (table_path selected_table).map (fun tp =>
    "SELECT DISTINCT " ++ client_col selected_table ++ " FROM `" ++ tp ++
      "` WHERE " ++ client_col selected_table ++ " IS NOT NULL")

/-- Embeds the effect of lines 94–97 on a warehouse column (the client
column of the selected table, a list of nullable strings): the SQL keeps
distinct non-null values, `dropna().unique()` deduplicates, and Python's
`sorted` orders them. -/
def fetchClients (col : List (Option String)) : List String :=
  List.insertionSort (· ≤ ·) (col.filterMap id).dedup

/-! ### Query and download (lines 107–131) -/

/-- A row of a warehouse table, reduced to what the page's query touches:
the client column, the value `DATE(date)` (dates modelled as integers
under their usual order), and the remaining cells. -/
structure Row where
  client : String
  date : Int
  rest : List String
deriving DecidableEq, Repr

/-- The parameters of one parameterized query issued by the page
(lines 110–122): the table identifier interpolated into the SQL and the
three query parameters. -/
structure QueryIssued where
  tablePath : String
  clients : List String
  startDate : Int
  endDate : Int
deriving DecidableEq, Repr

/-- The WHERE clause of the query at lines 110–115:
`client_col IN UNNEST(@clients) AND DATE(date) BETWEEN @start_date AND @end_date`. -/
def matchesFilter (clients : List String) (startDate endDate : Int) (r : Row) : Bool :=
  clients.contains r.client && decide (startDate ≤ r.date) && decide (r.date ≤ endDate)

/-- The result set the warehouse returns for the query at lines 110–115
when run over `table`. -/
def sqlFilterEval (table : List Row) (clients : List String)
    (startDate endDate : Int) : List Row :=
  table.filter (matchesFilter clients startDate endDate)

/-- One CSV line of `df.to_csv` for a row. -/
def rowToCsvLine (r : Row) : String :=
  r.client ++ "," ++ toString r.date ++ "," ++ String.intercalate "," r.rest

/-- Models `df.to_csv(index=False)` (line 126) on a result set. -/
def toCsv (rows : List Row) : String :=
  String.intercalate "\n" (rows.map rowToCsvLine)

/-- Embeds the "Run Query and Download" handler (lines 108–131).
`table` is the content of the selected warehouse table and `ops n` says
whether the warehouse's `n`-th query attempt raises (the page performs
only attempt `0`). Returns the queries issued, the CSV offered through
`st.download_button` (if any), and the messages displayed. -/
def runQueryHandler (tablePath : String) (table : List Row)
    (selected_clients : List String) (start_date end_date : Int)
    (ops : Nat → Except String Unit) :
    List QueryIssued × Option String × List Msg :=
  if selected_clients.isEmpty then
    ([], none, [Msg.warning "Please select at least one client."])
  else
    match ops 0 with
    | Except.ok _ =>
        let df := sqlFilterEval table selected_clients start_date end_date
        ([⟨tablePath, selected_clients, start_date, end_date⟩], some (toCsv df), [])
    | Except.error e =>
        ([⟨tablePath, selected_clients, start_date, end_date⟩], none,
          [Msg.error ("❌ Query failed: " ++ e)])

/-! ### Upload section (lines 145–198) -/

/-- Python `\w` on the characters the page handles: letter, digit or
underscore. -/
def isWordChar (c : Char) : Bool :=
  c.isAlphanum || c = '_'

/-- Python `\s`: space, tab, newline, carriage return, vertical tab,
form feed. -/
def isSpaceChar (c : Char) : Bool :=
  c = ' ' || c = '\t' || c = '\n' || c = '\r' || c = '\x0b' || c = '\x0c'

/-- `column_name.replace(' ', '_')` acts character by character. -/
def replaceSpace (c : Char) : Char :=
  if c = ' ' then '_' else c

/-- Embeds `clean_column_name` (lines 150–153): replace each space by an
underscore, then `re.sub(r'[^\w\s]', '', ...)` removes every character
that is neither a word character nor whitespace. -/
def clean_column_name (column_name : String) : String :=
  ((column_name.data.map replaceSpace).filter
    (fun c => isWordChar c || isSpaceChar c)).asString

/-- Line 155: the dataframe's columns are renamed before being shown. -/
def sanitizeColumns (cols : List String) : List String :=
  cols.map clean_column_name

/-- `dataset_id = "sftp_uploads"` (line 160). -/
def dataset_id : String := "sftp_uploads"

/-- `disposition_map` (lines 183–187). -/
def disposition_map : List (String × String) :=
  [("Create new table", "WRITE_EMPTY"),
   ("Append to existing table", "WRITE_APPEND"),
   ("Replace existing table", "WRITE_TRUNCATE")]

/-- `disposition_map[write_disposition]` (line 191). -/
def dispositionOf (mode : String) : Option String :=
  (disposition_map.find? (fun p => p.1 = mode)).map Prod.snd

/-- `table_ref = f"{client.project}.{dataset_id}.{table_id}"` (line 190). -/
def table_ref (project table_id : String) : String :=
  project ++ "." ++ dataset_id ++ "." ++ table_id

/-- The load job submitted at lines 190–194: target identifier, write
disposition of the `LoadJobConfig`, and the columns of the uploaded
dataframe. -/
structure LoadJobIssued where
  tableRef : String
  writeDisposition : String
  columns : List String
deriving DecidableEq, Repr

/-- Embeds the "Upload to BigQuery" handler (lines 189–198): a load job
targeting `table_ref` is submitted with the mapped write disposition over
the dataframe whose columns were sanitized at line 155; success and
failure of `job.result()` (attempt `0` of `ops`) are reported. -/
def uploadHandler (project mode table_id : String) (cols : List String)
    (ops : Nat → Except String Unit) : List LoadJobIssued × List Msg :=
  match dispositionOf mode with
  | none => ([], [])
  | some d =>
      let ref := table_ref project table_id
      ([⟨ref, d, sanitizeColumns cols⟩],
        match ops 0 with
        | Except.ok _ =>
            [Msg.success ("✅ Uploaded to `" ++ ref ++ "` using mode: " ++ mode)]
        | Except.error e => [Msg.error ("❌ Upload failed: " ++ e)])

/-! ### Call sites with try/except (lines 43–59, 95–105, 169–174) -/

/-- Embeds `init_bigquery_client` (lines 43–59): attempt `0` of building
the client either yields a client or raises; the exception message is
shown after the fixed text and `None` is returned. -/
def init_bigquery_client {α : Type} (ops : Nat → Except String α) :
    Option α × List Msg :=
  match ops 0 with
  | Except.ok c => (some c, [])
  | Except.error e =>
      (none, [Msg.error ("Error initializing BigQuery client: " ++ e)])

/-- Embeds the client-fetch try/except (lines 95–105): on success the
multiselect is populated from `fetchClients`; on failure the message is
shown and the selection falls back to the empty list. -/
def fetchClientsSite (ops : Nat → Except String (List (Option String))) :
    List String × List Msg :=
  match ops 0 with
  | Except.ok col => (fetchClients col, [])
  | Except.error e => ([], [Msg.error ("Could not fetch clients: " ++ e)])

/-- Embeds the existing-tables try/except (lines 168–174): on failure a
warning is shown and `existing_tables` stays `[]`. -/
def listTablesSite (ops : Nat → Except String (List String)) :
    List String × List Msg :=
  match ops 0 with
  | Except.ok ts => (ts, [])
  | Except.error e =>
      ([], [Msg.warning ("⚠️ Could not fetch existing tables: " ++ e)])

/-! ### Helper lemmas -/

/-- Character-level core of `clean_column_name`. -/
def cleanChars (l : List Char) : List Char :=
  (l.map replaceSpace).filter (fun c => isWordChar c || isSpaceChar c)

theorem cleanChars_cons (c : Char) (t : List Char) :
    cleanChars (c :: t) =
      if (isWordChar (replaceSpace c) || isSpaceChar (replaceSpace c)) = true then
        replaceSpace c :: cleanChars t
      else cleanChars t := by
  simp only [cleanChars, List.map_cons, List.filter_cons]

theorem cleanChars_count_underscore (l : List Char) :
    (cleanChars l).count '_' = l.count '_' + l.count ' ' := by
  induction l with
  | nil => rfl
  | cons c t ih =>
      rw [cleanChars_cons]
      by_cases hc : c = ' '
      · subst hc
        have h1 : replaceSpace ' ' = '_' := rfl
        rw [h1]
        have h2 : (isWordChar '_' || isSpaceChar '_') = true := rfl
        rw [if_pos h2]
        simp [List.count_cons, ih]
        omega
      · have h1 : replaceSpace c = c := by simp [replaceSpace, hc]
        rw [h1]
        by_cases hk : (isWordChar c || isSpaceChar c) = true
        · rw [if_pos hk]
          by_cases hu : c = '_'
          · subst hu
            simp [List.count_cons, ih, hc]
            omega
          · simp [List.count_cons, ih, hc, hu, Ne.symm hu]
        · rw [if_neg hk]
          have hu : c ≠ '_' := by
            intro h; subst h; exact hk rfl
          have hsp : c ≠ ' ' := hc
          simp [List.count_cons, ih, hu, hsp, Ne.symm hu, Ne.symm hsp]

theorem clean_column_name_data (s : String) :
    (clean_column_name s).data = cleanChars s.data := rfl

/-! ### Claim theorems -/

/-- Claim C1: for every non-empty client selection and every start/end date
pair, the Run Query and Download handler issues exactly one parameterized
query against the given table identifier; the query's result set is exactly
the rows whose client is among the selected clients and whose date lies
between the start and end dates inclusive; and the offered download is that
result serialized as CSV. -/
theorem run_query_and_download_correct (tablePath : String) (table : List Row)
    (selected : List String) (a b : Int) (ops : Nat → Except String Unit)
    (hne : selected ≠ []) (hok : ops 0 = Except.ok ()) :
    runQueryHandler tablePath table selected a b ops
      = ([⟨tablePath, selected, a, b⟩],
         some (toCsv (sqlFilterEval table selected a b)), [])
  ∧ (∀ r, r ∈ sqlFilterEval table selected a b ↔
      r ∈ table ∧ r.client ∈ selected ∧ a ≤ r.date ∧ r.date ≤ b) := by
  constructor
  · have hemp : selected.isEmpty = false := by
      simp [List.isEmpty_eq_false, hne]
    simp [runQueryHandler, hemp, hok]
  · intro r
    simp [sqlFilterEval, matchesFilter, List.mem_filter, and_assoc]

/-- Witness for C1 at a concrete table, selection and date range. -/
theorem run_query_and_download_correct_witness :
    runQueryHandler "trimark-tdp.master.all_ga4"
        [⟨"acme", 5, ["x"]⟩, ⟨"zeta", 5, []⟩, ⟨"acme", 99, []⟩]
        ["acme"] 0 10 (fun _ => Except.ok ())
      = ([⟨"trimark-tdp.master.all_ga4", ["acme"], 0, 10⟩],
         some (toCsv (sqlFilterEval
            [⟨"acme", 5, ["x"]⟩, ⟨"zeta", 5, []⟩, ⟨"acme", 99, []⟩] ["acme"] 0 10)),
         [])
  ∧ (∀ r, r ∈ sqlFilterEval
        [⟨"acme", 5, ["x"]⟩, ⟨"zeta", 5, []⟩, ⟨"acme", 99, []⟩] ["acme"] 0 10 ↔
      r ∈ [⟨"acme", 5, ["x"]⟩, ⟨"zeta", 5, []⟩, ⟨"acme", 99, []⟩]
        ∧ r.client ∈ ["acme"] ∧ 0 ≤ r.date ∧ r.date ≤ 10) :=
  run_query_and_download_correct "trimark-tdp.master.all_ga4"
    [⟨"acme", 5, ["x"]⟩, ⟨"zeta", 5, []⟩, ⟨"acme", 99, []⟩]
    ["acme"] 0 10 (fun _ => Except.ok ()) (by decide) rfl

/-- Claim C2: the three upload modes map to WRITE_EMPTY, WRITE_APPEND and
WRITE_TRUNCATE respectively, and the load job submitted by the upload
handler carries exactly that write disposition. -/
theorem write_disposition_mapping (project table_id : String)
    (cols : List String) (ops : Nat → Except String Unit) :
    dispositionOf "Create new table" = some "WRITE_EMPTY"
  ∧ dispositionOf "Append to existing table" = some "WRITE_APPEND"
  ∧ dispositionOf "Replace existing table" = some "WRITE_TRUNCATE"
  ∧ (uploadHandler project "Create new table" table_id cols ops).1.map
      (fun j => j.writeDisposition) = ["WRITE_EMPTY"]
  ∧ (uploadHandler project "Append to existing table" table_id cols ops).1.map
      (fun j => j.writeDisposition) = ["WRITE_APPEND"]
  ∧ (uploadHandler project "Replace existing table" table_id cols ops).1.map
      (fun j => j.writeDisposition) = ["WRITE_TRUNCATE"] := by
  refine ⟨by decide, by decide, by decide, ?_, ?_, ?_⟩ <;> rfl

/-- Claim C3: the client multiselect holds exactly the sorted distinct
non-null values of the selected table's client column, and that column is
Client_Name for All Leads and All Form Leads and client_name otherwise. -/
theorem client_list_correct (selected_table : String) (col : List (Option String)) :
    (selected_table = "All Leads" ∨ selected_table = "All Form Leads" →
      client_col selected_table = "Client_Name")
  ∧ (¬(selected_table = "All Leads" ∨ selected_table = "All Form Leads") →
      client_col selected_table = "client_name")
  ∧ (fetchClients col).Sorted (· ≤ ·)
  ∧ (fetchClients col).Nodup
  ∧ (∀ v, v ∈ fetchClients col ↔ some v ∈ col) := by
  refine ⟨fun h => by simp [client_col, h], fun h => by simp [client_col, h],
    List.sorted_insertionSort _ _,
    (List.perm_insertionSort _ _).nodup_iff.mpr (List.nodup_dedup _),
    fun v => ?_⟩
  simp [fetchClients, List.mem_filterMap]

/-- Witness for C3 at a concrete table label and column content. -/
theorem client_list_correct_witness :
    ("All Leads" = "All Leads" ∨ "All Leads" = "All Form Leads" →
      client_col "All Leads" = "Client_Name")
  ∧ (¬("All Leads" = "All Leads" ∨ "All Leads" = "All Form Leads") →
      client_col "All Leads" = "client_name")
  ∧ (fetchClients [some "b", none, some "a", some "b"]).Sorted (· ≤ ·)
  ∧ (fetchClients [some "b", none, some "a", some "b"]).Nodup
  ∧ (∀ v, v ∈ fetchClients [some "b", none, some "a", some "b"] ↔
      some v ∈ [some "b", none, some "a", some "b"]) :=
  client_list_correct "All Leads" [some "b", none, some "a", some "b"]

/-- Claim C4: clean_column_name replaces every space by an underscore and
removes every character that is neither a word character nor whitespace;
the dataframe's columns are the sanitized names. -/
theorem column_sanitization (s : String) (cols : List String) :
    (∀ c ∈ (clean_column_name s).data, (isWordChar c || isSpaceChar c) = true)
  ∧ ' ' ∉ (clean_column_name s).data
  ∧ (∀ c ∈ s.data, isWordChar c = true → c ∈ (clean_column_name s).data)
  ∧ (' ' ∈ s.data → '_' ∈ (clean_column_name s).data)
  ∧ (clean_column_name s).data.count '_' = s.data.count '_' + s.data.count ' '
  ∧ sanitizeColumns cols = cols.map clean_column_name := by
  refine ⟨?_, ?_, ?_, ?_, ?_, rfl⟩
  · intro c hc
    simp only [clean_column_name, List.asString, List.mem_filter] at hc
    exact hc.2
  · intro h
    simp only [clean_column_name, List.asString, List.mem_filter, List.mem_map] at h
    obtain ⟨⟨c, _, hc⟩, _⟩ := h
    simp only [replaceSpace] at hc
    split at hc
    · exact absurd hc (by decide)
    · exact absurd hc (by assumption)
  · intro c hc hw
    have hcs : c ≠ ' ' := by
      intro h; subst h; exact absurd hw (by decide)
    simp only [clean_column_name, List.asString, List.mem_filter, List.mem_map]
    exact ⟨⟨c, hc, by simp [replaceSpace, hcs]⟩, by simp [hw]⟩
  · intro h
    simp only [clean_column_name, List.asString, List.mem_filter, List.mem_map]
    exact ⟨⟨' ', h, rfl⟩, by decide⟩
  · rw [clean_column_name_data]
    exact cleanChars_count_underscore s.data

/-- Witness for C4 at a concrete raw column name with a space, a dot and a
percent sign. -/
theorem column_sanitization_witness :
    (∀ c ∈ (clean_column_name "Lead %.Rate 1").data,
        (isWordChar c || isSpaceChar c) = true)
  ∧ ' ' ∉ (clean_column_name "Lead %.Rate 1").data
  ∧ (∀ c ∈ "Lead %.Rate 1".data, isWordChar c = true →
        c ∈ (clean_column_name "Lead %.Rate 1").data)
  ∧ (' ' ∈ "Lead %.Rate 1".data → '_' ∈ (clean_column_name "Lead %.Rate 1").data)
  ∧ (clean_column_name "Lead %.Rate 1").data.count '_'
      = "Lead %.Rate 1".data.count '_' + "Lead %.Rate 1".data.count ' '
  ∧ sanitizeColumns ["Lead %.Rate 1"] = ["Lead %.Rate 1"].map clean_column_name :=
  column_sanitization "Lead %.Rate 1" ["Lead %.Rate 1"]

/-- Claim C5: every warehouse call site (client initialization, client-list
fetch, filtered query, listing existing tables, load job) catches a raised
exception at that site, displays its message verbatim after the site's fixed
text as an error or warning, falls back to a fixed value instead of
recovering, and performs no retry: each site's outcome depends only on
attempt 0. -/
theorem error_handling_sites (e : String) (tablePath : String) (table : List Row)
    (selected : List String) (a b : Int)
    (project mode table_id d : String) (cols : List String) :
    (∀ ops : Nat → Except String Unit, ops 0 = Except.error e →
        init_bigquery_client ops
          = (none, [Msg.error ("Error initializing BigQuery client: " ++ e)]))
  ∧ (∀ ops, ops 0 = Except.error e →
        fetchClientsSite ops = ([], [Msg.error ("Could not fetch clients: " ++ e)]))
  ∧ (∀ ops : Nat → Except String Unit, ops 0 = Except.error e → selected ≠ [] →
        (runQueryHandler tablePath table selected a b ops).2
          = (none, [Msg.error ("❌ Query failed: " ++ e)]))
  ∧ (∀ ops, ops 0 = Except.error e →
        listTablesSite ops
          = ([], [Msg.warning ("⚠️ Could not fetch existing tables: " ++ e)]))
  ∧ (∀ ops : Nat → Except String Unit, dispositionOf mode = some d →
        ops 0 = Except.error e →
        (uploadHandler project mode table_id cols ops).2
          = [Msg.error ("❌ Upload failed: " ++ e)])
  ∧ (∀ ops ops' : Nat → Except String Unit, ops 0 = ops' 0 →
        init_bigquery_client ops = init_bigquery_client ops')
  ∧ (∀ ops ops', ops 0 = ops' 0 → fetchClientsSite ops = fetchClientsSite ops')
  ∧ (∀ ops ops' : Nat → Except String Unit, ops 0 = ops' 0 →
        runQueryHandler tablePath table selected a b ops
          = runQueryHandler tablePath table selected a b ops')
  ∧ (∀ ops ops', ops 0 = ops' 0 → listTablesSite ops = listTablesSite ops')
  ∧ (∀ ops ops' : Nat → Except String Unit, ops 0 = ops' 0 →
        uploadHandler project mode table_id cols ops
          = uploadHandler project mode table_id cols ops') := by
  refine ⟨?_, ?_, ?_, ?_, ?_, ?_, ?_, ?_, ?_, ?_⟩
  · intro ops h
    simp [init_bigquery_client, h]
  · intro ops h
    simp [fetchClientsSite, h]
  · intro ops h hne
    have hemp : selected.isEmpty = false := by
      simp [List.isEmpty_eq_false, hne]
    simp [runQueryHandler, hemp, h]
  · intro ops h
    simp [listTablesSite, h]
  · intro ops hd h
    simp [uploadHandler, hd, h]
  · intro ops ops' h
    simp [init_bigquery_client, h]
  · intro ops ops' h
    simp [fetchClientsSite, h]
  · intro ops ops' h
    simp [runQueryHandler, h]
  · intro ops ops' h
    simp [listTablesSite, h]
  · intro ops ops' h
    simp [uploadHandler, h]

/-- Witness for C5 at a concrete exception message, table, selection and
upload mode. -/
theorem error_handling_sites_witness :
    (∀ ops : Nat → Except String Unit, ops 0 = Except.error "boom" →
        init_bigquery_client ops
          = (none, [Msg.error ("Error initializing BigQuery client: " ++ "boom")]))
  ∧ (∀ ops, ops 0 = Except.error "boom" →
        fetchClientsSite ops
          = ([], [Msg.error ("Could not fetch clients: " ++ "boom")]))
  ∧ (∀ ops : Nat → Except String Unit, ops 0 = Except.error "boom" →
        ["acme"] ≠ ([] : List String) →
        (runQueryHandler "trimark-tdp.master.all_gmb" [] ["acme"] 0 1 ops).2
          = (none, [Msg.error ("❌ Query failed: " ++ "boom")]))
  ∧ (∀ ops, ops 0 = Except.error "boom" →
        listTablesSite ops
          = ([], [Msg.warning ("⚠️ Could not fetch existing tables: " ++ "boom")]))
  ∧ (∀ ops : Nat → Except String Unit,
        dispositionOf "Append to existing table" = some "WRITE_APPEND" →
        ops 0 = Except.error "boom" →
        (uploadHandler "trimark-tdp" "Append to existing table" "t1" ["c"] ops).2
          = [Msg.error ("❌ Upload failed: " ++ "boom")])
  ∧ (∀ ops ops' : Nat → Except String Unit, ops 0 = ops' 0 →
        init_bigquery_client ops = init_bigquery_client ops')
  ∧ (∀ ops ops', ops 0 = ops' 0 → fetchClientsSite ops = fetchClientsSite ops')
  ∧ (∀ ops ops' : Nat → Except String Unit, ops 0 = ops' 0 →
        runQueryHandler "trimark-tdp.master.all_gmb" [] ["acme"] 0 1 ops
          = runQueryHandler "trimark-tdp.master.all_gmb" [] ["acme"] 0 1 ops')
  ∧ (∀ ops ops', ops 0 = ops' 0 → listTablesSite ops = listTablesSite ops')
  ∧ (∀ ops ops' : Nat → Except String Unit, ops 0 = ops' 0 →
        uploadHandler "trimark-tdp" "Append to existing table" "t1" ["c"] ops
          = uploadHandler "trimark-tdp" "Append to existing table" "t1" ["c"] ops') :=
  error_handling_sites "boom" "trimark-tdp.master.all_gmb" [] ["acme"] 0 1
    "trimark-tdp" "Append to existing table" "t1" "WRITE_APPEND" ["c"]

/-- Claim C6: while logged_in is false only the login form runs and the
script stops before any other section; logged_in becomes true exactly when
the entered pair matches the stored secrets; a wrong pair only shows an
error message and leaves the session unchanged. -/
theorem login_gates_page (secrets : LoginSecrets) (u p : String) (s : Session) :
    (s.logged_in = false → scriptRun s = [PageStep.loginForm])
  ∧ (s.logged_in = false →
      ((login secrets u p true s).1.logged_in = true ↔
        u = secrets.username ∧ p = secrets.app_password))
  ∧ (¬(u = secrets.username ∧ p = secrets.app_password) →
      login secrets u p true s = (s, [Msg.error "Incorrect username or password"])) := by
  refine ⟨fun h => by simp [scriptRun, h], fun h => ?_, fun h => by simp [login, h]⟩
  by_cases hm : u = secrets.username ∧ p = secrets.app_password
  · simp [login, hm]
  · simp [login, hm, h]

/-- Witness for C6 at concrete secrets, a wrong entered pair and a
logged-out session. -/
theorem login_gates_page_witness :
    ((Session.mk false).logged_in = false →
      scriptRun (Session.mk false) = [PageStep.loginForm])
  ∧ ((Session.mk false).logged_in = false →
      ((login ⟨"admin", "pw"⟩ "admin" "wrong" true (Session.mk false)).1.logged_in = true ↔
        "admin" = (LoginSecrets.mk "admin" "pw").username
          ∧ "wrong" = (LoginSecrets.mk "admin" "pw").app_password))
  ∧ (¬("admin" = (LoginSecrets.mk "admin" "pw").username
        ∧ "wrong" = (LoginSecrets.mk "admin" "pw").app_password) →
      login ⟨"admin", "pw"⟩ "admin" "wrong" true (Session.mk false)
        = (Session.mk false, [Msg.error "Incorrect username or password"])) :=
  login_gates_page ⟨"admin", "pw"⟩ "admin" "wrong" (Session.mk false)

/-- Claim C7: the table registry is a fixed five-entry mapping whose values
are fully-qualified project.dataset.table identifiers; the path looked up
for each label is exactly the registry's value, the client-fetch query is
built from exactly that path, and every query the download handler issues
targets exactly the path it was given. -/
theorem table_registry_fixed :
    tables.length = 5
  ∧ table_path "All Paid Media" = some "trimark-tdp.master.all_paidmedia"
  ∧ table_path "All GA4" = some "trimark-tdp.master.all_ga4"
  ∧ table_path "All Leads" = some "trimark-tdp.master.all_leads"
  ∧ table_path "All Form Leads" = some "trimark-tdp.master.all_form_table"
  ∧ table_path "All GMB" = some "trimark-tdp.master.all_gmb"
  ∧ "trimark-tdp.master.all_paidmedia"
      = "trimark-tdp" ++ "." ++ "master" ++ "." ++ "all_paidmedia"
  ∧ "trimark-tdp.master.all_ga4" = "trimark-tdp" ++ "." ++ "master" ++ "." ++ "all_ga4"
  ∧ "trimark-tdp.master.all_leads"
      = "trimark-tdp" ++ "." ++ "master" ++ "." ++ "all_leads"
  ∧ "trimark-tdp.master.all_form_table"
      = "trimark-tdp" ++ "." ++ "master" ++ "." ++ "all_form_table"
  ∧ "trimark-tdp.master.all_gmb" = "trimark-tdp" ++ "." ++ "master" ++ "." ++ "all_gmb"
  ∧ (∀ label tp, table_path label = some tp →
      client_query label = some ("SELECT DISTINCT " ++ client_col label ++ " FROM `"
        ++ tp ++ "` WHERE " ++ client_col label ++ " IS NOT NULL"))
  ∧ (∀ tp table sel a b ops, ∀ q ∈ (runQueryHandler tp table sel a b ops).1,
      q.tablePath = tp) := by
  refine ⟨rfl, by decide, by decide, by decide, by decide, by decide,
    by decide, by decide, by decide, by decide, by decide, ?_, ?_⟩
  · intro label tp h
    simp [client_query, h]
  · intro tp table sel a b ops q hq
    by_cases hemp : sel.isEmpty
    · simp [runQueryHandler, hemp] at hq
    · simp only [runQueryHandler, if_neg hemp] at hq
      rcases h0 : ops 0 with _ | _ <;> rw [h0] at hq <;>
        simp at hq <;> rw [hq]

/-- Witness for C7: the quantified conjuncts applied at the All Leads label
and a concrete issued query. -/
theorem table_registry_fixed_witness :
    client_query "All Leads" = some ("SELECT DISTINCT " ++ client_col "All Leads"
      ++ " FROM `" ++ "trimark-tdp.master.all_leads" ++ "` WHERE "
      ++ client_col "All Leads" ++ " IS NOT NULL")
  ∧ ∀ q ∈ (runQueryHandler "trimark-tdp.master.all_leads" [] ["acme"] 0 1
      (fun _ => Except.ok ())).1, q.tablePath = "trimark-tdp.master.all_leads" :=
  ⟨table_registry_fixed.2.2.2.2.2.2.2.2.2.2.2.1 "All Leads"
      "trimark-tdp.master.all_leads" (by decide),
   table_registry_fixed.2.2.2.2.2.2.2.2.2.2.2.2 "trimark-tdp.master.all_leads"
      [] ["acme"] 0 1 (fun _ => Except.ok ())⟩

/-- Claim C8: the page validates neither the dates nor an entered table
name: any start/end pair (even start after end) is passed unchanged into
the issued query's parameters, and any entered table name is passed
unchanged into the load job's table reference. -/
theorem no_client_side_validation (tablePath : String) (table : List Row)
    (selected : List String) (a b : Int) (ops : Nat → Except String Unit)
    (project mode table_id d : String) (cols : List String) :
    (selected ≠ [] →
      (runQueryHandler tablePath table selected a b ops).1
        = [⟨tablePath, selected, a, b⟩])
  ∧ (dispositionOf mode = some d →
      (uploadHandler project mode table_id cols ops).1
        = [⟨table_ref project table_id, d, sanitizeColumns cols⟩]) := by
  constructor
  · intro hne
    have hemp : selected.isEmpty = false := by
      simp [List.isEmpty_eq_false, hne]
    rcases h0 : ops 0 with _ | _ <;> simp [runQueryHandler, hemp, h0]
  · intro hd
    simp [uploadHandler, hd]

/-- Witness for C8: a reversed date range (start 5, end 1) and a table name
that breaks the lowercase_with_underscores rule are both passed through
unchanged. -/
theorem no_client_side_validation_witness :
    (["acme"] ≠ ([] : List String) →
      (runQueryHandler "trimark-tdp.master.all_ga4" [] ["acme"] 5 1
          (fun _ => Except.ok ())).1
        = [⟨"trimark-tdp.master.all_ga4", ["acme"], 5, 1⟩])
  ∧ (dispositionOf "Create new table" = some "WRITE_EMPTY" →
      (uploadHandler "trimark-tdp" "Create new table" "Bad Name!" ["c"]
          (fun _ => Except.ok ())).1
        = [⟨table_ref "trimark-tdp" "Bad Name!", "WRITE_EMPTY",
            sanitizeColumns ["c"]⟩]) :=
  no_client_side_validation "trimark-tdp.master.all_ga4" [] ["acme"] 5 1
    (fun _ => Except.ok ()) "trimark-tdp" "Create new table" "Bad Name!"
    "WRITE_EMPTY" ["c"]

/-- Claim C9: every load job the upload handler submits targets
project.sftp_uploads.table_id — the dataset component is the constant
sftp_uploads for every mode and every user input. -/
theorem upload_dataset_constant (project mode table_id : String)
    (cols : List String) (ops : Nat → Except String Unit) :
    dataset_id = "sftp_uploads"
  ∧ ∀ job ∈ (uploadHandler project mode table_id cols ops).1,
      job.tableRef = project ++ "." ++ "sftp_uploads" ++ "." ++ table_id := by
  refine ⟨rfl, fun job hj => ?_⟩
  rcases hd : dispositionOf mode with _ | d <;>
    simp [uploadHandler, hd] at hj
  rw [hj]
  rfl

/-- Witness for C9 at a concrete project, mode and table name. -/
theorem upload_dataset_constant_witness :
    dataset_id = "sftp_uploads"
  ∧ ∀ job ∈ (uploadHandler "trimark-tdp" "Replace existing table" "t2" ["c"]
      (fun _ => Except.ok ())).1,
      job.tableRef = "trimark-tdp" ++ "." ++ "sftp_uploads" ++ "." ++ "t2" :=
  upload_dataset_constant "trimark-tdp" "Replace existing table" "t2" ["c"]
    (fun _ => Except.ok ())

/-- Claim C10: clicking Run Query and Download with no client selected
issues no query, offers no download, and only displays the warning
"Please select at least one client." -/
theorem empty_selection_warns_only (tablePath : String) (table : List Row)
    (a b : Int) (ops : Nat → Except String Unit) :
    runQueryHandler tablePath table [] a b ops
      = ([], none, [Msg.warning "Please select at least one client."]) := rfl

end StreamlitApp
